import Mathlib

/-!
Verification of the NHL play-by-play feature-derivation engine
(`src/milestone2/feature_engineering.py` and the geometry helpers of
`src/scripts/tidy_data_creator.py`), shallowly embedded in Lean.

Modelling conventions:
* Python exceptions are modelled with `Except Unit`; a `try/except` block
  becomes a `match` on the `Except` value of the guarded computation.
* JSON values that may be absent are `Option`s.  Where Python distinguishes
  a *missing dictionary key* (subscripting raises `KeyError`) from a key
  that is *present with value `None`*, the field is an `Option (Option _)`:
  the outer `none` is the missing key.
* Machine floats are modelled as follows: data that merely flows through
  (coordinates, angles read from the input table) are rationals `ℚ`;
  computed geometry (square roots, arctangents) lives in `ℝ`.
* `pandas`/`numpy` vectorised operations are mapped over lists of rows.
-/

namespace NHL

/-- Substring test, the embedding of Python's `needle in hay`:
true iff `needle` occurs contiguously in `hay` (true for the empty needle). -/
def strContains (hay needle : String) : Bool :=
  hay.toList.tails.any fun t => needle.toList.isPrefixOf t

/-- Splitting on a single separator character, the embedding of Python's
`t.split(":")`: e.g. `"ab"` gives one group, `":"` gives two empty groups. -/
def splitOnChar (c : Char) : List Char → List (List Char)
  | [] => [[]]
  | x :: xs =>
    match splitOnChar c xs with
    | [] => [[]]
    | g :: gs => if x = c then [] :: g :: gs else (x :: g) :: gs

/-- Digit-string value, used to embed Python's `int(str)`: `none` unless
the list is one or more decimal digits. -/
def digitsVal (cs : List Char) : Option ℕ :=
  if cs = [] then none
  else
    cs.foldl
      (fun acc c =>
        match acc with
        | none => none
        | some n => if c.isDigit then some (n * 10 + (c.toNat - '0'.toNat)) else none)
      (some 0)

/-- Embedding of Python's `int(str)` on a stripped literal: an optional
sign followed by decimal digits (the exotic Python extras — inner
underscores, non-ASCII digits, surrounding whitespace — never occur in
`"mm:ss"` clock data and are not modelled). -/
def parseInt : List Char → Option ℤ
  | '-' :: rest => (digitsVal rest).map fun n => -(n : ℤ)
  | '+' :: rest => (digitsVal rest).map fun n => (n : ℤ)
  | cs => (digitsVal cs).map fun n => (n : ℤ)

/-- Embedding of `FeatureEngineering._to_seconds`.  `None` input returns
`None`; a string must split on `":"` into exactly two integer literals
(`m, s = map(int, t.split(":"))`), otherwise a `ValueError` escapes,
modelled as `Except.error`. -/
def to_seconds : Option String → Except Unit (Option ℤ)
  | none => .ok none
  | some t =>
    match splitOnChar ':' t.toList with
    | [m, s] =>
      match parseInt m, parseInt s with
      | some mv, some sv => .ok (some (mv * 60 + sv))
      | _, _ => .error ()
    | _ => .error ()

/-- One raw play record, holding exactly the fields the engine reads.
`periodNumber` models `play["periodDescriptor"]["number"]`: the outer
`Option` is the presence of the `"periodDescriptor"` key (accessing
`.get("number")` on an absent descriptor raises), the inner one the
presence of `"number"` itself.  The remaining fields are read with `.get`
only, so a missing key and a `null` value behave identically and a single
`Option` suffices. -/
structure Play where
  typeDescKey : Option String
  situationCode : Option String
  timeInPeriod : Option String
  periodNumber : Option (Option ℤ)
  xCoord : Option ℚ
  yCoord : Option ℚ
  teamId : Option ℤ
deriving DecidableEq

/-- A loaded raw game payload: `homeTeam.id`, `awayTeam.id` and the
ordered `plays` list — the three pieces `feature_engineering_2` reads. -/
structure RawGame where
  homeTeam : ℤ
  awayTeam : ℤ
  plays : List Play
deriving DecidableEq

/-- The filter predicate of `FeatureEngineering._get_last_event`:
`to_seconds(play.get("timeInPeriod")) <= row["period_time_seconds"] and
play.get("periodDescriptor").get("number") == 1`.  Evaluation order is
Python's: the clock is converted first (`None <= int` raises `TypeError`,
a malformed clock raises `ValueError`), and the period test — which
raises when the descriptor is absent — is only reached when the time
bound holds.  Note the hardcoded period number `1`. -/
def playPasses (t : ℤ) (p : Play) : Except Unit Bool := do
  let s ← to_seconds p.timeInPeriod
  match s with
  | none => .error ()
  | some sv =>
    if sv ≤ t then
      match p.periodNumber with
      | none => .error ()
      | some n => .ok (n = some 1)
    else
      .ok false

/-- The list comprehension of `_get_last_event`, in source order; the
first raised exception aborts the whole comprehension. -/
def filterPlays (t : ℤ) : List Play → Except Unit (List Play)
  | [] => .ok []
  | p :: ps => do
    let b ← playPasses t p
    let rest ← filterPlays t ps
    if b then .ok (p :: rest) else .ok rest

/-- Embedding of `FeatureEngineering._get_last_event` (its return value:
the filtered play list; the local `previous_event`/`current_event`
bindings inside it are dead code re-done by the caller). -/
def get_last_event (g : RawGame) (t : ℤ) : Except Unit (List Play) :=
  filterPlays t g.plays

/-- The shape produced by `FeatureEngineering._format_event`.  The
`situationCode` and `details["teamId"]` keys are present exactly when the
formatted source was a dict (outer `Option` = key presence); `typeDescKey`,
coordinates and `timeInPeriod` keys are always present. -/
structure FmtEvent where
  typeDescKey : Option String
  situationCode : Option (Option String)
  xCoord : Option ℚ
  yCoord : Option ℚ
  teamId : Option (Option ℤ)
  timeInPeriod : Option String
deriving DecidableEq

/-- Embedding of `FeatureEngineering._format_event`. -/
def format_event : Option Play → FmtEvent
  | none => ⟨none, none, none, none, none, none⟩
  | some p => ⟨p.typeDescKey, some p.situationCode, p.xCoord, p.yCoord, some p.teamId,
               p.timeInPeriod⟩

example : strContains "blocked-shot" "shot" = true := by decide
example : strContains "faceoff" "shot" = false := by decide
example : to_seconds (some "01:05") = .ok (some 65) := rfl
example : to_seconds (some "x:05") = .error () := rfl
example : to_seconds none = .ok none := rfl

/-- ASCII lowercasing, the embedding of Python's `str.lower()` on the
ASCII event-type keys the engine compares. -/
def strLower (s : String) : String := String.mk (s.toList.map Char.toLower)

/-- Degrees from radians: `np.degrees`. -/
noncomputable def degreesOf (r : ℝ) : ℝ := r * (180 / Real.pi)

/-- Two-argument arctangent, the embedding of `np.arctan2(y, x)`: the
argument of the complex number `x + y*i`, valued in `(-π, π]` with
`atan2 0 0 = 0`, matching the IEEE function on non-signed-zero inputs. -/
noncomputable def atan2 (y x : ℝ) : ℝ := Complex.arg { re := x, im := y }

/-- Embedding of the local `compute_angle(x, y)` of
`feature_engineering_2`: `None` coordinates give `None`; otherwise `y` is
replaced by `abs(y)`, the nearer of the two nets `(±89, 0)` is chosen by
`np.hypot` distance, and the angle is
`np.degrees(np.arctan2(net_y - y, net_x - x))`. -/
noncomputable def compute_angle (x y : Option ℚ) : Option ℝ :=
  match x, y with
  | some xv, some yv =>
    let ya : ℚ := |yv|
    let dR : ℝ := Real.sqrt (((xv : ℝ) - 89) ^ 2 + ((ya : ℝ) - 0) ^ 2)
    let dL : ℝ := Real.sqrt (((xv : ℝ) - -89) ^ 2 + ((ya : ℝ) - 0) ^ 2)
    let net : ℝ × ℝ := if dR < dL then (89, 0) else (-89, 0)
    some (degreesOf (atan2 (net.2 - (ya : ℝ)) (net.1 - (xv : ℝ))))
  | _, _ => none

/-- Embedding of the local `is_powerplay(event)` of
`feature_engineering_2`, applied to raw play records: true iff characters
1 and 2 of the situation code exist and differ; any lookup failure
(missing key, `None` value, short string) is swallowed by the bare
`except` and yields `False`. -/
def is_powerplay (p : Play) : Bool :=
  match p.situationCode with
  | none => false
  | some s =>
    match s.toList[1]?, s.toList[2]? with
    | some a, some b => a != b
    | _, _ => false

/-- The backward scan of `compute_time_since_powerplay`: Python iterates
`reversed(previous_events)` and breaks at the first non-power-play event,
keeping `current_event` when none is found. -/
def findPowerplayStart (evs : List Play) (cur : Play) : Play :=
  match evs.reverse.find? (fun e => !is_powerplay e) with
  | some e => e
  | none => cur

/-- Embedding of the local `compute_time_since_powerplay(previous_events)`
of `feature_engineering_2`.  All raised exceptions (empty list, malformed
clock, `None` arithmetic) are caught by its `try/except`, yielding `0`;
the source computes `current_time` before the power-play test, hence the
error match before the `if`. -/
def compute_time_since_powerplay (evs : List Play) : ℤ :=
  match evs.getLast? with
  | none => 0
  | some cur =>
    match to_seconds cur.timeInPeriod with
    | .error _ => 0
    | .ok curT =>
      if is_powerplay cur then
        match to_seconds (findPowerplayStart evs cur).timeInPeriod with
        | .error _ => 0
        | .ok startT =>
          match curT, startT with
          | some c, some s => c - s
          | _, _ => 0
      else 0

/-- Outcome of the situation-code decode block (`feature_engineering_2`,
lines 193–203).  `assigned f o` means the two count variables were set
(either from the code's digits or to the `except` fallback `5, 5`);
`unassigned` means the `if/elif` fell through without raising — the
owning team id matched neither home nor away — and the variables were
*not* written on this iteration. -/
inductive CountsOutcome
  | assigned : ℤ → ℤ → CountsOutcome
  | unassigned : CountsOutcome
deriving DecidableEq

/-- `int(situation_code[i]), int(situation_code[j])`: `none` models any
raised exception (`None` subscript, short string, non-digit character). -/
def codeDigits (sc : Option String) (i j : ℕ) : Option (ℤ × ℤ) :=
  match sc with
  | none => none
  | some s =>
    match s.toList[i]?, s.toList[j]? with
    | some a, some b =>
      if a.isDigit && b.isDigit then
        some (((a.toNat - '0'.toNat : ℕ) : ℤ), ((b.toNat - '0'.toNat : ℕ) : ℤ))
      else none
    | _, _ => none

/-- Embedding of the player-count decode of `feature_engineering_2`
(lines 193–203) on a formatted current event.  A missing
`"situationCode"` or `"teamId"` key raises `KeyError` inside the `try`,
caught to the `5, 5` fallback, as is any subscript/`int` failure inside a
taken branch; a team id equal to neither side falls through with the
variables unassigned. -/
def decode_player_counts (ce : FmtEvent) (home away : ℤ) : CountsOutcome :=
  match ce.situationCode with
  | none => .assigned 5 5
  | some sc =>
    match ce.teamId with
    | none => .assigned 5 5
    | some tid =>
      if tid = some home then
        match codeDigits sc 2 1 with
        | some (f, o) => .assigned f o
        | none => .assigned 5 5
      else if tid = some away then
        match codeDigits sc 1 2 with
        | some (f, o) => .assigned f o
        | none => .assigned 5 5
      else .unassigned

/-- Embedding of the rebound expression (`feature_engineering_2`, lines
171–178): Python's short-circuit `and` chain under a `try` whose only
possible raises — `.lower()` on `None`, a missing `"teamId"` key — land in
`except: rebound = False`. -/
def rebound_of (ce le : FmtEvent) : Bool :=
  match le.typeDescKey with
  | none => false
  | some ty =>
    if strContains (strLower ty) "shot" then
      if strLower ty = "blocked-shot" then false
      else
        match ce.teamId, le.teamId with
        | some a, some b => a == b
        | _, _ => false
    else false

/-- Embedding of the `angle_change` block (`feature_engineering_2`, lines
180–186).  It is *not* inside a `try`: when the event is a rebound and
`compute_angle` returns `None`, `abs(row["shot_angle"] - None)` raises an
uncaught `TypeError`, modelled as `Except.error`. -/
noncomputable def angle_change_of (rebound : Bool) (shotAngle : ℚ) (lx ly : Option ℚ) :
    Except Unit ℝ :=
  if rebound then
    match compute_angle lx ly with
    | none => .error ()
    | some la =>
      let diff := |(shotAngle : ℝ) - la|
      .ok (if 180 < diff then 360 - diff else diff)
  else .ok 0

/-- One row of the input table as `feature_engineering_2` reads it: the
pandas index label (`row.name`, the `df.at` write target) plus the columns
the function consumes or passes through into its `features` selection.
Numeric cells are rationals (finite floats); `goalie_name` is optional to
model `isna`. -/
structure Row where
  name : ℕ
  game_id : ℤ
  goalie_name : Option String
  period_time_seconds : ℤ
  period : ℤ
  x_coord : ℚ
  y_coord : ℚ
  distance_from_net : ℚ
  shot_angle : ℚ
  shot_type : Option String
  is_goal : ℤ
deriving DecidableEq

/-- The `values` dict written back into the frame for one event
(`feature_engineering_2`, lines 207–223). -/
structure RowValues where
  last_event_type : Option String
  last_event_x : Option ℚ
  last_event_y : Option ℚ
  time_since_last_event : Option ℤ
  last_event_distance : Option ℝ
  rebound : Bool
  angle_change : ℝ
  event_speed : ℝ
  friendly_player_count : ℤ
  opponent_player_count : ℤ
  player_count_diff : ℤ
  time_since_powerplay : ℤ

/-- `previous_events[-2]` under its `try`: the second-to-last element, or
`none` on `IndexError`. -/
def secondLast (l : List Play) : Option Play := l.reverse[1]?

/-- The body of the per-event loop of `feature_engineering_2` (lines
144–223) for one row: produces the `values` written for this event and
the player-count variables' state after the iteration (they are ordinary
local variables of the enclosing method, so an `unassigned` decode
outcome silently reuses the previous iteration's pair — or raises
`UnboundLocalError` at the `values` construction when no iteration has
assigned them yet).  Any uncaught exception (`_get_last_event` raises, or
the rebound `angle_change` `TypeError`) is `Except.error` and aborts the
whole call. -/
noncomputable def processRow (g : RawGame) (r : Row) (cs : Option (ℤ × ℤ)) :
    Except Unit (RowValues × Option (ℤ × ℤ)) := do
  let prev ← get_last_event g r.period_time_seconds
  let ce := format_event prev.getLast?
  let le := format_event (secondLast prev)
  let tsle : Option ℤ :=
    match to_seconds le.timeInPeriod with
    | .ok (some s) => some (r.period_time_seconds - s)
    | _ => none
  let dist : Option ℝ :=
    match le.xCoord, le.yCoord with
    | some a, some b =>
      some (Real.sqrt (((r.x_coord : ℝ) - (a : ℝ)) ^ 2 + ((r.y_coord : ℝ) - (b : ℝ)) ^ 2))
    | _, _ => none
  let reb := rebound_of ce le
  let ac ← angle_change_of reb r.shot_angle le.xCoord le.yCoord
  let speed : ℝ :=
    match dist, tsle with
    | some d, some t => if t = 0 then 0 else d / (t : ℝ)
    | _, _ => 0
  let counts ←
    match decode_player_counts ce g.homeTeam g.awayTeam with
    | .assigned f o => Except.ok (f, o)
    | .unassigned =>
      match cs with
      | some p => Except.ok p
      | none => Except.error ()
  let tsp := compute_time_since_powerplay prev
  .ok (⟨le.typeDescKey, le.xCoord, le.yCoord, tsle, dist, reb, ac, speed,
        counts.1, counts.2, counts.1 - counts.2, tsp⟩, some counts)

/-- The dataframe object's state during `feature_engineering_2`: the
original row plus every column the function adds.
`distance_from_last_event` is the column created at line 130 and never
written again; `last_event_distance` is the column the first `.at` write
creates (modelled as present from the start with the `none` a fresh
column's unwritten cells hold). -/
structure FullRow where
  base : Row
  empty_net : ℤ
  last_event_type : Option String
  last_event_x : Option ℚ
  last_event_y : Option ℚ
  time_since_last_event : Option ℤ
  distance_from_last_event : Option ℝ
  last_event_distance : Option ℝ
  rebound : Bool
  angle_change : ℝ
  event_speed : ℝ
  friendly_player_count : ℤ
  opponent_player_count : ℤ
  player_count_diff : ℤ
  time_since_powerplay : ℤ

/-- The column initialisation of `feature_engineering_2` (lines 125–137)
applied to one row: `empty_net` from `goalie_name.isna()`, every other
added column at its vectorised default. -/
def initRow (r : Row) : FullRow :=
  { base := r
    empty_net := if r.goalie_name = none then 1 else 0
    last_event_type := none
    last_event_x := none
    last_event_y := none
    time_since_last_event := none
    distance_from_last_event := none
    last_event_distance := none
    rebound := false
    angle_change := 0
    event_speed := 0
    friendly_player_count := 5
    opponent_player_count := 5
    player_count_diff := 0
    time_since_powerplay := 0 }

/-- The state of the whole frame after lines 125–137, before the loop. -/
def initColumns (df : List Row) : List FullRow := df.map initRow

/-- The `for col, val in values.items(): df.at[row.name, col] = val`
write-back for one event's row. -/
def applyValues (fr : FullRow) (v : RowValues) : FullRow :=
  { fr with
    last_event_type := v.last_event_type
    last_event_x := v.last_event_x
    last_event_y := v.last_event_y
    time_since_last_event := v.time_since_last_event
    last_event_distance := v.last_event_distance
    rebound := v.rebound
    angle_change := v.angle_change
    event_speed := v.event_speed
    friendly_player_count := v.friendly_player_count
    opponent_player_count := v.opponent_player_count
    player_count_diff := v.player_count_diff
    time_since_powerplay := v.time_since_powerplay }

/-- Ascending insertion, for the sorted group keys of `df.groupby`. -/
def insertSorted (x : ℤ) : List ℤ → List ℤ
  | [] => [x]
  | y :: ys => if x ≤ y then x :: y :: ys else y :: insertSorted x ys

/-- Ascending sort of the distinct `game_id`s: `df.groupby("game_id")`
iterates groups in sorted key order. -/
def gameKeys (df : List Row) : List ℤ :=
  ((df.map fun r => r.game_id).eraseDups).foldr insertSorted []

/-- The inner `for _, row in group.iterrows()` loop over one game's rows,
threading the player-count variables and accumulating the `df.at`
assignments (later writes to the same label win). -/
noncomputable def processGroup (g : RawGame) :
    List Row → Option (ℤ × ℤ) → (ℕ → Option RowValues) →
    Except Unit ((ℕ → Option RowValues) × Option (ℤ × ℤ))
  | [], cs, asg => .ok (asg, cs)
  | r :: rest, cs, asg =>
    match processRow g r cs with
    | .error e => .error e
    | .ok (v, cs') =>
      processGroup g rest cs' fun n => if n = r.name then some v else asg n

/-- The outer `for game_id, group in grouped` loop.  `_load_raw_game` is
modelled by `raws : ℤ → Option RawGame`: `none` stands for a payload that
cannot be loaded (missing file, unreadable JSON, or absent
`homeTeam`/`awayTeam` ids), whose uncaught exception aborts the whole
call; on success the mutable `self._cached_game` slot is overwritten
before any read. -/
noncomputable def fe2Loop (raws : ℤ → Option RawGame) (df : List Row) :
    List ℤ → Option RawGame → Option (ℤ × ℤ) → (ℕ → Option RowValues) →
    Except Unit ((ℕ → Option RowValues) × Option RawGame)
  | [], cache, _, asg => .ok (asg, cache)
  | k :: ks, _, cs, asg =>
    match raws k with
    | none => .error ()
    | some g =>
      match processGroup g (df.filter fun r => r.game_id == k) cs asg with
      | .error e => .error e
      | .ok (asg', cs') => fe2Loop raws df ks (some g) cs' asg'

/-- The caller-visible state of the input frame when `feature_engineering_2`
returns (the function mutates `df` through `df.at` cell writes): every row
carries the added columns, holding the per-event computed values for rows
whose game was processed.  `cache0` is the `self._cached_game` slot's
content when the call starts. -/
noncomputable def fe2Post (raws : ℤ → Option RawGame) (cache0 : Option RawGame)
    (df : List Row) : Except Unit (List FullRow) :=
  (fe2Loop raws df (gameKeys df) cache0 none fun _ => none).map fun p =>
    df.map fun r =>
      match p.1 r.name with
      | some v => applyValues (initRow r) v
      | none => initRow r

/-- One row of the returned table: the `features` column selection of
line 224–230, in source order. -/
structure OutRow where
  period_time_seconds : ℤ
  period : ℤ
  x_coord : ℚ
  y_coord : ℚ
  distance_from_net : ℚ
  shot_angle : ℚ
  shot_type : Option String
  empty_net : ℤ
  last_event_type : Option String
  last_event_x : Option ℚ
  last_event_y : Option ℚ
  time_since_last_event : Option ℤ
  last_event_distance : Option ℝ
  rebound : Bool
  angle_change : ℝ
  event_speed : ℝ
  friendly_player_count : ℤ
  opponent_player_count : ℤ
  player_count_diff : ℤ
  time_since_powerplay : ℤ
  is_goal : ℤ

/-- `df[features].copy()`: the column selection applied to one mutated row. -/
def selectFeatures (fr : FullRow) : OutRow :=
  { period_time_seconds := fr.base.period_time_seconds
    period := fr.base.period
    x_coord := fr.base.x_coord
    y_coord := fr.base.y_coord
    distance_from_net := fr.base.distance_from_net
    shot_angle := fr.base.shot_angle
    shot_type := fr.base.shot_type
    empty_net := fr.empty_net
    last_event_type := fr.last_event_type
    last_event_x := fr.last_event_x
    last_event_y := fr.last_event_y
    time_since_last_event := fr.time_since_last_event
    last_event_distance := fr.last_event_distance
    rebound := fr.rebound
    angle_change := fr.angle_change
    event_speed := fr.event_speed
    friendly_player_count := fr.friendly_player_count
    opponent_player_count := fr.opponent_player_count
    player_count_diff := fr.player_count_diff
    time_since_powerplay := fr.time_since_powerplay
    is_goal := fr.base.is_goal }

/-- Embedding of `FeatureEngineering.feature_engineering_2`: the returned
table (`df[features].copy()`), or `Except.error` when any uncaught
exception aborts the call. -/
noncomputable def feature_engineering_2 (raws : ℤ → Option RawGame)
    (cache0 : Option RawGame) (df : List Row) : Except Unit (List OutRow) :=
  (fe2Post raws cache0 df).map (List.map selectFeatures)

/-- The context lookup as the specification words it
(`events_up_to(period, t)`): the events of the *target's own* period whose
elapsed seconds are `<= t`, in timeline order.  Stated for comparison with
`get_last_event`, which hardcodes period `1`. -/
def events_up_to_spec (plays : List Play) (period t : ℤ) : List Play :=
  plays.filter fun e =>
    decide (e.periodNumber = some (some period)) &&
      match to_seconds e.timeInPeriod with
      | .ok (some s) => decide (s ≤ t)
      | _ => false

/-- `time_since_power_play` as the specification words it: `0` when the
current (last) event is not a power play or on any failure; otherwise the
current event's elapsed seconds minus those of the most recent *earlier*
non-power-play event, found scanning the prefix backward — or minus the
current event's own time (yielding `0`) when no such earlier event
exists.  Stated for comparison with `compute_time_since_powerplay`. -/
def time_since_power_play_spec (evs : List Play) : ℤ :=
  match evs.getLast? with
  | none => 0
  | some cur =>
    if is_powerplay cur then
      match to_seconds cur.timeInPeriod with
      | .ok (some c) =>
        match evs.dropLast.reverse.find? (fun e => !is_powerplay e) with
        | some e =>
          match to_seconds e.timeInPeriod with
          | .ok (some s) => c - s
          | _ => 0
        | none => 0
      | _ => 0
    else 0

/-- The goal point's x for an attacking-net side, rink convention:
`(89, 0) if net_side == 'right' else (-89, 0)`. -/
def netX (netSide : String) : ℚ := if netSide = "right" then 89 else -89

/-- Embedding of `NHLTidyDataCreator._calculate_distance_and_angle`
(`src/scripts/tidy_data_creator.py`): `(None, None)` on a missing
coordinate, otherwise the Euclidean distance
`((x-net_x)**2 + (y-net_y)**2)**0.5` and the angle `90.0` when
`adjacent == 0`, else `np.degrees(np.arctan(opposite/adjacent))` with
`adjacent = abs(x-net_x)`, `opposite = abs(y-net_y)`, `net_y = 0`. -/
noncomputable def calculate_distance_and_angle (x y : Option ℚ) (netSide : String) :
    Option ℝ × Option ℝ :=
  match x, y with
  | some xv, some yv =>
    let nx : ℚ := netX netSide
    let dx : ℚ := xv - nx
    let dy : ℚ := yv - 0
    let dist : ℝ := Real.sqrt ((dx : ℝ) ^ 2 + (dy : ℝ) ^ 2)
    let adjacent : ℚ := |xv - nx|
    let opposite : ℚ := |yv - 0|
    let angle : ℝ :=
      if adjacent = 0 then 90
      else degreesOf (Real.arctan ((opposite : ℝ) / (adjacent : ℝ)))
    (some dist, some angle)
  | _, _ => (none, none)

/-- The geometry contract exactly as the claim words it: distance to the
goal point and angle `degrees(atan2(|y - goal_y|, goal_x - x))`.  Stated
for comparison with `calculate_distance_and_angle`. -/
noncomputable def distance_and_angle_claimed (x y : Option ℚ) (netSide : String) :
    Option ℝ × Option ℝ :=
  match x, y with
  | some xv, some yv =>
    (some (Real.sqrt (((xv : ℝ) - ((netX netSide : ℚ) : ℝ)) ^ 2 + ((yv : ℝ) - 0) ^ 2)),
     some (degreesOf (atan2 |(yv : ℝ) - 0| (((netX netSide : ℚ) : ℝ) - (xv : ℝ)))))
  | _, _ => (none, none)

/-- The amended geometry contract: same distance and `None` handling, but
the angle is `90` on the goal line (`x = goal_x`) and
`degrees(arctan(|y - goal_y| / |x - goal_x|))` otherwise — an acute-angle
convention valued in `[0, 90]`. -/
noncomputable def distance_and_angle_amended (x y : Option ℚ) (netSide : String) :
    Option ℝ × Option ℝ :=
  match x, y with
  | some xv, some yv =>
    (some (Real.sqrt (((xv : ℝ) - ((netX netSide : ℚ) : ℝ)) ^ 2 + ((yv : ℝ) - 0) ^ 2)),
     some (if xv = netX netSide then (90 : ℝ)
           else degreesOf (Real.arctan (|(yv : ℝ) - 0| / |(xv : ℝ) - ((netX netSide : ℚ) : ℝ)|))))
  | _, _ => (none, none)

/-- A faceoff in period 1 at 0:05, even strength, team 7. -/
def pA : Play := ⟨some "faceoff", some "1551", some "00:05", some (some 1), some 0, some 0, some 7⟩

/-- A shot-on-goal in period 2 at 0:03, team 7. -/
def pB : Play :=
  ⟨some "shot-on-goal", some "1451", some "00:03", some (some 2), some 50, some 10, some 7⟩

/-- A game with one play in each of periods 1 and 2. -/
def gC1 : RawGame := ⟨20, 7, [pA, pB]⟩

/-- A shot-on-goal by team 7 with *missing coordinates*. -/
def pPrevShot : Play :=
  ⟨some "shot-on-goal", some "1551", some "00:05", some (some 1), none, none, some 7⟩

/-- A goal by team 7 three seconds later, coordinates present. -/
def pCurGoal : Play :=
  ⟨some "goal", some "1551", some "00:08", some (some 1), some 10, some 5, some 7⟩

/-- A game whose last two period-1 events are a coordinate-less shot
followed by a goal by the same team: a rebound with no previous angle. -/
def gC2 : RawGame := ⟨20, 7, [pPrevShot, pCurGoal]⟩

/-- The target row for that goal (10 s into period 1). -/
def rC2 : Row := ⟨0, 1, none, 10, 1, 12, 6, 30, 25, some "wrist", 1⟩

/-- A goal whose owning team id `3` is neither the home id `1` nor the
away id `2` of its game. -/
def pUnknownTeam : Play :=
  ⟨some "goal", some "1551", some "00:08", some (some 1), some 10, some 5, some 3⟩

/-- A game (home 1, away 2) containing only `pUnknownTeam`. -/
def gC5 : RawGame := ⟨1, 2, [pUnknownTeam]⟩

/-- The target row for `pUnknownTeam`. -/
def rC5 : Row := ⟨0, 5, none, 10, 1, 12, 6, 30, 25, some "wrist", 1⟩

example : get_last_event gC1 10 = .ok [pA] := rfl
example : events_up_to_spec gC1.plays 2 10 = [pB] := rfl
example : processRow gC2 rC2 none = .error () := rfl
example : decode_player_counts (format_event (some pUnknownTeam)) 1 2 = .unassigned := rfl
example : processRow gC5 rC5 none = .error () := rfl
example : (processRow gC5 rC5 (some (4, 3))).map
    (fun p => (p.1.friendly_player_count, p.1.opponent_player_count)) = .ok (4, 3) := rfl
example : compute_time_since_powerplay [pA] = 0 := rfl
example : compute_time_since_powerplay [pA, pB] = -2 := rfl
example : time_since_power_play_spec [pA, pB] = -2 := rfl

/-- A faceoff by the home team with situation code `"1451"` (a power
play) in period 1 at 0:05. -/
def pC10 : Play := ⟨some "faceoff", some "1451", some "00:05", some (some 1), some 20, some 10, some 1⟩

/-- A game (home 1, away 2) containing only `pC10`. -/
def gC10 : RawGame := ⟨1, 2, [pC10]⟩

/-- The target row for `pC10`'s game, 10 s into period 1, no goalie. -/
def rC10 : Row := ⟨0, 3, none, 10, 1, 20, 10, 35, 25, some "slap", 0⟩

/-- A loader that serves `gC10` for every game id. -/
def rawsC10 : ℤ → Option RawGame := fun _ => some gC10

/-- A row of game 1 (whose payload will be unloadable). -/
def rC8a : Row := ⟨0, 1, none, 10, 1, 12, 6, 30, 25, some "wrist", 1⟩

/-- A row of game 2 (whose payload is fine). -/
def rC8b : Row := ⟨1, 2, none, 10, 1, 12, 6, 30, 25, some "wrist", 0⟩

/-- A loader with game 1's payload unreadable and every other game
loadable. -/
def rawsC8 : ℤ → Option RawGame := fun k => if k = 1 then none else some gC1

/-- C1: the claim says the context lookup keeps exactly the events of the
target event's *own* period with elapsed seconds `<= t`, never a
hardcoded period.  The code is wrong: for a target in period 2 at `t = 10`
of `gC1`, `_get_last_event` returns the period-1 faceoff `pA` (filtered by
the hardcoded `periodDescriptor.number == 1`) and drops the qualifying
period-2 shot `pB`, which the spec-worded lookup returns. -/
theorem c1_hardcoded_period_eval :
    get_last_event gC1 10 = .ok [pA] ∧ events_up_to_spec gC1.plays 2 10 = [pB] ∧
      pA.periodNumber = some (some 1) ∧ pB.periodNumber = some (some 2) ∧ pA ≠ pB :=
  ⟨rfl, rfl, rfl, rfl, by decide⟩

/-- C2: the claim says no exception escapes a single event's row
construction.  The code is wrong: for the row `rC2` of `gC2` — whose
candidate context is a coordinate-less shot followed by a goal by the same
team, hence `rebound = True` with `compute_angle(None, None) = None` — the
unguarded `abs(row["shot_angle"] - None)` raises a `TypeError` that
aborts the whole game's processing instead of yielding a defaulted row. -/
theorem c2_row_construction_raises : processRow gC2 rC2 none = .error () := rfl

/-- C4: the claim says `angle_change` is `None` when a required angle is
`None`.  The code is wrong: on a rebound whose previous event has no
coordinates (`pPrevShot` before `pCurGoal`), the previous angle is `None`
and the subtraction raises instead of producing `None`. -/
theorem c4_angle_change_raises :
    rebound_of (format_event (some pCurGoal)) (format_event (some pPrevShot)) = true ∧
      angle_change_of (rebound_of (format_event (some pCurGoal)) (format_event (some pPrevShot)))
        rC2.shot_angle (format_event (some pPrevShot)).xCoord
        (format_event (some pPrevShot)).yCoord = .error () :=
  ⟨rfl, rfl⟩

/-- C5: the claim says an owning-team id that is neither the home nor the
away team defaults both counts to 5 and the diff to 0 with no error.  The
code is wrong: that case falls through the `if/elif` with the count
variables unassigned, so the first such event raises `UnboundLocalError`
(aborting the call) and any later one silently reuses the previous
event's counts — here the stale `(4, 3)` with diff `1`. -/
theorem c5_unknown_team_counts :
    decode_player_counts (format_event (some pUnknownTeam)) 1 2 = CountsOutcome.unassigned ∧
      processRow gC5 rC5 none = .error () ∧
      (processRow gC5 rC5 (some (4, 3))).map
        (fun p => (p.1.friendly_player_count, p.1.opponent_player_count,
          p.1.player_count_diff)) = .ok (4, 3, 1) :=
  ⟨rfl, rfl, rfl⟩

/-- C10: `feature_engineering_2` mutates its caller's frame in place: on
the one-row frame `[rC10]` the post-call state of the argument carries
the added feature columns with the per-event computed values written into
them (`player_count_diff = 1`, from situation code `"1451"`), differing
from the state the pre-loop column initialisation left (`0`), and the
returned table is the `features` column selection of that mutated state. -/
theorem c10_in_place_mutation :
    fe2Post rawsC10 none [rC10] =
        .ok [⟨rC10, 1, none, none, none, none, none, none, false, 0, 0, 5, 4, 1, 0⟩] ∧
      (initColumns [rC10]).map FullRow.player_count_diff = [0] ∧
      (fe2Post rawsC10 none [rC10]).map (fun l => l.map FullRow.player_count_diff) = .ok [1] ∧
      feature_engineering_2 rawsC10 none [rC10] =
        (fe2Post rawsC10 none [rC10]).map (List.map selectFeatures) :=
  ⟨rfl, rfl, rfl, rfl⟩

/-- C3: the rebound flag is true iff the previous candidate's type is
present and contains `"shot"` case-insensitively, is not the blocked-shot
type, and both candidates' owning-team values are present and equal; in
every other case — including every lookup failure swallowed by the
`except` — it is `False` (it is a `Bool`, never `None`). -/
theorem c3_rebound_iff :
    ∀ ce le : FmtEvent, rebound_of ce le = true ↔
      ∃ ty, le.typeDescKey = some ty ∧ strContains (strLower ty) "shot" = true ∧
        strLower ty ≠ "blocked-shot" ∧
        ∃ tc tl, ce.teamId = some tc ∧ le.teamId = some tl ∧ tc = tl := by
  intro ce le
  unfold rebound_of
  rcases hty : le.typeDescKey with _ | ty
  · simp [hty]
  · rcases hct : ce.teamId with _ | tc <;> rcases hlt : le.teamId with _ | tl <;>
      by_cases hs : strContains (strLower ty) "shot" = true <;>
      by_cases hb : strLower ty = "blocked-shot" <;>
      simp [hty, hct, hlt, hs, hb, beq_iff_eq]

/-- C6: `compute_time_since_powerplay` agrees everywhere with the
contract as the specification words it: `0` when the current (last)
event is not a power play or on any failure, and otherwise the current
event's elapsed seconds minus those of the most recent earlier
non-power-play event found scanning backward (or minus its own time,
i.e. `0`, when none exists); `is_powerplay` is character 1 ≠ character 2
of the situation code. -/
theorem c6_time_since_powerplay_matches_spec :
    ∀ evs : List Play, compute_time_since_powerplay evs = time_since_power_play_spec evs := by
  intro evs
  rcases h : evs.getLast? with _ | cur
  · simp only [compute_time_since_powerplay, time_since_power_play_spec, h]
  · obtain ⟨ys, rfl⟩ := List.getLast?_eq_some_iff.mp h
    simp only [compute_time_since_powerplay, time_since_power_play_spec, h, findPowerplayStart]
    have hrev : (ys ++ [cur]).reverse = cur :: ys.reverse := by simp
    have hdl : (ys ++ [cur]).dropLast = ys := by simp
    rw [hrev, hdl]
    cases hpp : is_powerplay cur with
    | false =>
      rcases hts : to_seconds cur.timeInPeriod with e | t
      · simp [hpp, hts]
      · simp [hpp, hts]
    | true =>
      have hfind : (cur :: ys.reverse).find? (fun e => !is_powerplay e) =
          ys.reverse.find? (fun e => !is_powerplay e) := by
        simp [List.find?, hpp]
      rw [hfind]
      rcases hts : to_seconds cur.timeInPeriod with e | t
      · simp [hpp, hts]
      · rcases t with _ | c
        · rcases hf : ys.reverse.find? (fun e => !is_powerplay e) with _ | e
          · simp [hpp, hts, hf]
          · rcases hts2 : to_seconds e.timeInPeriod with e2 | t2 <;> simp [hpp, hts, hf, hts2]
        · rcases hf : ys.reverse.find? (fun e => !is_powerplay e) with _ | e
          · simp [hpp, hts, hf]
          · rcases hts2 : to_seconds e.timeInPeriod with e2 | t2
            · simp [hpp, hts, hf, hts2]
            · rcases t2 with _ | s <;> simp [hpp, hts, hf, hts2]

/-- C7 counterexample: at the goal point itself — `x = 89, y = 0`,
attacking the right net — the code returns the angle `90` (its
`adjacent == 0` branch) while the claimed formula
`degrees(atan2(|y - goal_y|, goal_x - x)) = degrees(atan2 0 0)` is `0`,
so the claim is false as stated. -/
theorem c7_counterexample :
    (calculate_distance_and_angle (some 89) (some 0) "right").2 ≠
      (distance_and_angle_claimed (some 89) (some 0) "right").2 := by
  have hcode : (calculate_distance_and_angle (some 89) (some 0) "right").2 = some 90 := by
    simp [calculate_distance_and_angle, netX]
  have hzero : ({ re := ((netX "right" : ℚ) : ℝ) - ((89 : ℚ) : ℝ), im := |((0 : ℚ) : ℝ) - 0| } : ℂ)
      = 0 := by
    apply Complex.ext <;> simp [netX]
  have hclaim : (distance_and_angle_claimed (some 89) (some 0) "right").2 = some 0 := by
    simp only [distance_and_angle_claimed, atan2, degreesOf]
    rw [hzero]
    simp [Complex.arg_zero]
  rw [hcode, hclaim]
  intro h
  have : (90 : ℝ) = 0 := Option.some.inj h
  norm_num at this

/-- C7 amended: `_calculate_distance_and_angle` returns the Euclidean
distance to the explicit attacking goal point and an *acute* angle —
`90` on the goal line and `degrees(arctan(|y - goal_y| / |x - goal_x|))`
otherwise, always within `[0, 90]` — and `(None, None)` when a
coordinate is unknown. -/
theorem c7_amended_geometry :
    (∀ x y side, calculate_distance_and_angle x y side = distance_and_angle_amended x y side) ∧
      ∀ (xv yv : ℚ) (side : String), ∃ a : ℝ,
        (calculate_distance_and_angle (some xv) (some yv) side).2 = some a ∧
          0 ≤ a ∧ a ≤ 90 := by
  constructor
  · intro x y side
    rcases x with _ | xv <;> rcases y with _ | yv
    · rfl
    · rfl
    · rfl
    · have hiff : (|xv - netX side| = (0 : ℚ)) ↔ xv = netX side := by
        rw [abs_eq_zero, sub_eq_zero]
      simp only [calculate_distance_and_angle, distance_and_angle_amended, Prod.mk.injEq,
        Option.some.injEq]
      constructor
      · push_cast
        ring_nf
      · simp only [hiff]
        split_ifs with h1
        · rfl
        · congr 2
          push_cast
          ring_nf
  · intro xv yv side
    by_cases h : |xv - netX side| = (0 : ℚ)
    · refine ⟨90, ?_, by norm_num, le_refl 90⟩
      simp [calculate_distance_and_angle, h]
    · refine ⟨degreesOf (Real.arctan (((|yv - 0| : ℚ) : ℝ) / ((|xv - netX side| : ℚ) : ℝ))),
        ?_, ?_, ?_⟩
      · simp [calculate_distance_and_angle, h]
      · unfold degreesOf
        apply mul_nonneg
        · rw [← Real.arctan_zero]
          apply Real.arctan_strictMono.monotone
          positivity
        · positivity
      · unfold degreesOf
        have harc : Real.arctan (((|yv - 0| : ℚ) : ℝ) / ((|xv - netX side| : ℚ) : ℝ)) ≤
            Real.pi / 2 :=
          le_of_lt (Real.arctan_lt_pi_div_two _)
        calc Real.arctan (((|yv - 0| : ℚ) : ℝ) / ((|xv - netX side| : ℚ) : ℝ)) * (180 / Real.pi)
            ≤ Real.pi / 2 * (180 / Real.pi) := by
              apply mul_le_mul_of_nonneg_right harc
              positivity
          _ = 90 := by
              field_simp
              ring

/-- Helper: if any processed group key has an unloadable payload, the
outer loop raises. -/
theorem fe2Loop_error_of_missing (raws : ℤ → Option RawGame) (df : List Row) :
    ∀ (ks : List ℤ) (c : Option RawGame) (cs : Option (ℤ × ℤ))
      (asg : ℕ → Option RowValues) (k : ℤ), k ∈ ks → raws k = none →
      fe2Loop raws df ks c cs asg = .error () := by
  intro ks
  induction ks with
  | nil =>
    intro c cs asg k hk _
    exact absurd hk (List.not_mem_nil k)
  | cons k' ks ih =>
    intro c cs asg k hk hn
    rcases hm : raws k' with _ | g
    · simp only [fe2Loop, hm]
    · rcases List.mem_cons.mp hk with rfl | hmem
      · rw [hn] at hm
        exact absurd hm (by simp)
      · rcases hpg : processGroup g (df.filter fun r => r.game_id == k') cs asg with e | p
        · cases e
          simp only [fe2Loop, hm, hpg]
        · rcases p with ⟨asg', cs'⟩
          simp only [fe2Loop, hm, hpg]
          exact ih (some g) cs' asg' k hmem hn

/-- C8 counterexample: a two-game batch whose first game's payload is
unreadable.  The whole call raises — no feature table is produced at all,
game 2 is never processed, and nothing resembling a `MalformedPayload`
batch report exists — contradicting the claim that the bad game is
skipped, reported, and the rest continues. -/
theorem c8_counterexample : feature_engineering_2 rawsC8 none [rC8a, rC8b] = .error () := rfl

/-- C8 amended: a game whose raw payload cannot be loaded (missing file,
unreadable JSON, or absent required top-level fields) makes the whole
`feature_engineering_2` call raise: the batch aborts with no output table,
no per-game skip, and no report; games after it are not processed. -/
theorem c8_missing_payload_aborts_batch :
    ∀ (raws : ℤ → Option RawGame) (c0 : Option RawGame) (df : List Row),
      (∃ k ∈ gameKeys df, raws k = none) →
      feature_engineering_2 raws c0 df = .error () := by
  intro raws c0 df ⟨k, hk, hn⟩
  unfold feature_engineering_2 fe2Post
  rw [fe2Loop_error_of_missing raws df (gameKeys df) c0 none (fun _ => none) k hk hn]
  rfl

/-- Closed instance of `c8_missing_payload_aborts_batch`: every payload
unreadable, a one-row frame for game 1. -/
theorem c8_missing_payload_aborts_batch_witness :
    feature_engineering_2 (fun _ => none) none [rC8a] = .error () :=
  c8_missing_payload_aborts_batch (fun _ => none) none [rC8a] ⟨1, by decide, rfl⟩

/-- Helper: the assignment component (hence everything the caller sees)
of the outer loop does not depend on the incoming cached-game slot: the
slot is overwritten by `_load_raw_game` before any read. -/
theorem fe2Loop_fst_cache_indep (raws : ℤ → Option RawGame) (df : List Row) :
    ∀ (ks : List ℤ) (cs : Option (ℤ × ℤ)) (asg : ℕ → Option RowValues)
      (c1 c2 : Option RawGame),
      (fe2Loop raws df ks c1 cs asg).map Prod.fst =
        (fe2Loop raws df ks c2 cs asg).map Prod.fst := by
  intro ks cs asg c1 c2
  cases ks with
  | nil => rfl
  | cons k ks =>
    rcases hm : raws k with _ | g
    · simp only [fe2Loop, hm]
    · rcases hpg : processGroup g (df.filter fun r => r.game_id == k) cs asg with e | p
      · simp only [fe2Loop, hm, hpg]
      · rcases p with ⟨asg', cs'⟩
        simp only [fe2Loop, hm, hpg]

/-- Helper: two `Except` values with equal first projections stay equal
under any function of the first component. -/
theorem map_fst_congr {α β γ : Type} {X1 X2 : Except Unit (α × β)} (F : α → γ)
    (h : X1.map Prod.fst = X2.map Prod.fst) :
    X1.map (fun p => F p.1) = X2.map (fun p => F p.1) := by
  cases X1 with
  | error e1 =>
    cases X2 with
    | error e2 =>
      cases e1
      cases e2
      rfl
    | ok p2 => simp [Except.map] at h
  | ok p1 =>
    cases X2 with
    | error e2 => simp [Except.map] at h
    | ok p2 =>
      simp only [Except.map] at h ⊢
      rw [Except.ok.injEq] at h
      rw [h]

/-- C9: the feature derivation is a deterministic function of the raw
payloads and the input table: its result is independent of the hidden
mutable `self._cached_game` slot's content at call time (the only
cross-run state), so running it twice on identical inputs yields
identical output rows. -/
theorem c9_deterministic :
    ∀ (raws : ℤ → Option RawGame) (df : List Row) (c1 c2 : Option RawGame),
      feature_engineering_2 raws c1 df = feature_engineering_2 raws c2 df := by
  intro raws df c1 c2
  unfold feature_engineering_2 fe2Post
  exact congrArg (Except.map (List.map selectFeatures))
    (map_fst_congr
      (fun asg => df.map fun r =>
        match asg r.name with
        | some v => applyValues (initRow r) v
        | none => initRow r)
      (fe2Loop_fst_cache_indep raws df (gameKeys df) none (fun _ => none) c1 c2))

end NHL
